import Mathlib

/-!
A shallow embedding of the fake-board example (DeviceAPI.h, Board.h,
Board.cc): a simulated circuit board exposing two fake memory-mapped
devices through a uniform device interface, with errno-style integer
error codes.  Methods that mutate the receiver are modelled by returning
the updated value together with the error code; out parameters are
modelled by passing the current value in and returning the (possibly
unchanged) value out.  The uninitialized contents of Store::memory_ are
modelled by an explicit junk parameter to the constructor.
-/

/-- errno value EPERM, as used by the sources via cerrno. -/
def Errno.EPERM : Nat := 1

/-- errno value ENXIO. -/
def Errno.ENXIO : Nat := 6

/-- errno value ENODEV. -/
def Errno.ENODEV : Nat := 19

/-- errno value EINVAL. -/
def Errno.EINVAL : Nat := 22

/-- RomConfig, the read-only example device: a display name fixed at
construction and a fixed-size array of 64-bit cells. -/
structure RomConfig where
  name_ : String
  memory_ : List Nat
deriving DecidableEq

/-- RomConfig::MEM_SIZE_, the number of addressable cells. -/
def RomConfig.MEM_SIZE_ : Nat := 5

/-- RomConfig's constructor: records the name and loads the ROM with
index-valued contents (memory_[i] = i for each i below MEM_SIZE_). -/
def RomConfig.new (name : String) : RomConfig :=
  { name_ := name
    memory_ := List.range RomConfig.MEM_SIZE_ }

/-- RomConfig::name. -/
def RomConfig.name (d : RomConfig) : String := d.name_

/-- RomConfig::size. -/
def RomConfig.size (_d : RomConfig) : Nat := RomConfig.MEM_SIZE_

/-- RomConfig::initialize: prints a message and returns 0; the device is
not changed. -/
def RomConfig.initialize_ (d : RomConfig) : Nat × RomConfig := (0, d)

/-- RomConfig::read: fails with EINVAL when the offset is out of range,
leaving the out parameter untouched; otherwise stores the addressed cell
into the out parameter and returns 0. -/
def RomConfig.read (d : RomConfig) (offset : Nat) (valp : Nat) : Nat × Nat :=
  if RomConfig.MEM_SIZE_ ≤ offset then (Errno.EINVAL, valp)
  else (0, d.memory_.getD offset 0)

/-- RomConfig::write: fails with EINVAL when the offset is out of range
and with EPERM otherwise; the memory is never touched. -/
def RomConfig.write (d : RomConfig) (offset : Nat) (_val : Nat) :
    Nat × RomConfig :=
  if RomConfig.MEM_SIZE_ ≤ offset then (Errno.EINVAL, d)
  else (Errno.EPERM, d)

/-- Store, the read/write example device: a display name and a version
recorded at construction, and a fixed-size array of 64-bit cells. -/
structure Store where
  name_ : String
  version_ : Int
  memory_ : List Nat
deriving DecidableEq

/-- Store::MEM_SIZE_, the number of addressable cells. -/
def Store.MEM_SIZE_ : Nat := 10

/-- Store's constructor: name_ is the given name, a dot and the version;
error checks are deferred to initialization, and the memory array is left
uninitialized, modelled by the arbitrary list junk supplied here. -/
def Store.new (name : String) (version : Int) (junk : List Nat) : Store :=
  { name_ := name ++ "." ++ toString version
    version_ := version
    memory_ := junk }

/-- Store::name. -/
def Store.name (d : Store) : String := d.name_

/-- Store::size. -/
def Store.size (_d : Store) : Nat := Store.MEM_SIZE_

/-- Store::initialize: the deferred error check fails with ENXIO when the
version exceeds 3, leaving the device unchanged; otherwise the memory is
zero-filled (memset) and the call returns 0. -/
def Store.initialize_ (d : Store) : Nat × Store :=
  if 3 < d.version_ then (Errno.ENXIO, d)
  else (0, { d with memory_ := List.replicate Store.MEM_SIZE_ 0 })

/-- Store::read: fails with EINVAL when the offset is out of range,
leaving the out parameter untouched; otherwise stores the addressed cell
into the out parameter and returns 0. -/
def Store.read (d : Store) (offset : Nat) (valp : Nat) : Nat × Nat :=
  if Store.MEM_SIZE_ ≤ offset then (Errno.EINVAL, valp)
  else (0, d.memory_.getD offset 0)

/-- Store::write: fails with EINVAL when the offset is out of range;
otherwise stores the value at the offset and returns 0. -/
def Store.write (d : Store) (offset : Nat) (val : Nat) : Nat × Store :=
  if Store.MEM_SIZE_ ≤ offset then (Errno.EINVAL, d)
  else (0, { d with memory_ := d.memory_.set offset val })

/-- Device, the abstract interface of DeviceAPI.h; Board.cc instantiates
exactly the two variants RomConfig and Store, so virtual dispatch is a
tagged variant. -/
inductive Device
  | rom (d : RomConfig)
  | store (d : Store)
deriving DecidableEq

/-- Device::name, dispatched. -/
def Device.name : Device → String
  | rom d => RomConfig.name d
  | store d => Store.name d

/-- Device::size, dispatched. -/
def Device.size : Device → Nat
  | rom d => RomConfig.size d
  | store d => Store.size d

/-- Device::initialize, dispatched. -/
def Device.initialize_ : Device → Nat × Device
  | rom d =>
    match RomConfig.initialize_ d with
    | (err, d2) => (err, rom d2)
  | store d =>
    match Store.initialize_ d with
    | (err, d2) => (err, store d2)

/-- Device::read, dispatched. -/
def Device.read : Device → Nat → Nat → Nat × Nat
  | rom d, offset, valp => RomConfig.read d offset valp
  | store d, offset, valp => Store.read d offset valp

/-- Device::write, dispatched. -/
def Device.write : Device → Nat → Nat → Nat × Device
  | rom d, offset, val =>
    match RomConfig.write d offset val with
    | (err, d2) => (err, rom d2)
  | store d, offset, val =>
    match Store.write d offset val with
    | (err, d2) => (err, store d2)

/-- NUM_DEVICES of Board.cc. -/
def NUM_DEVICES : Nat := 2

/-- Board of Board.h: the version parameter, a device count and an owned
device sequence. -/
structure Board where
  version_b_ : Int
  count_ : Nat
  devices_ : List Device
deriving DecidableEq

/-- Board's constructor: records the version; the count starts at 0 and
the device sequence empty. -/
def Board.new (version_b : Int) : Board :=
  { version_b_ := version_b, count_ := 0, devices_ := [] }

/-- The loop of Board::initialize: initialize each device in order,
stopping at the first failure; returns the error code the loop leaves
behind (the first failure, or 0) and the updated device sequence. -/
def initDevices : List Device → Nat × List Device
  | [] => (0, [])
  | dev :: rest =>
    match Device.initialize_ dev with
    | (err, dev2) =>
      if err ≠ 0 then (err, dev2 :: rest)
      else
        match initDevices rest with
        | (err2, rest2) => (err2, dev2 :: rest2)

/-- Board::initialize: sets count_ to NUM_DEVICES, pushes a RomConfig
named Acme ROM and a Store named Beta Memory built from the board's
version, then runs the initialization loop over the device sequence. -/
def Board.initialize_ (b : Board) (junk : List Nat) : Nat × Board :=
  let b1 : Board :=
    { b with
      count_ := NUM_DEVICES
      devices_ := b.devices_ ++
        [Device.rom (RomConfig.new "Acme ROM"),
         Device.store (Store.new "Beta Memory" b.version_b_ junk)] }
  match initDevices b1.devices_ with
  | (err, devs) => (err, { b1 with devices_ := devs })

/-- Board::device_name: the source's bounds check is id > count_ (not >=).
When the check passes but id is not below the length of devices_, the
C++ vector indexing is out of bounds, undefined behaviour, modelled by
none. -/
def Board.device_name (b : Board) (id : Nat) (name : String) :
    Option (Nat × String) :=
  if b.count_ < id then some (Errno.ENODEV, name)
  else
    match b.devices_.get? id with
    | none => none
    | some dev => some (0, Device.name dev)

/-- Board::device_size, with the same id > count_ check and the same
modelling of the out-of-bounds vector access as device_name. -/
def Board.device_size (b : Board) (id : Nat) (sizep : Nat) :
    Option (Nat × Nat) :=
  if b.count_ < id then some (Errno.ENODEV, sizep)
  else
    match b.devices_.get? id with
    | none => none
    | some dev => some (0, Device.size dev)

/-- Board::device_get: after the id > count_ check, delegates to the
addressed device's read and propagates its result verbatim. -/
def Board.device_get (b : Board) (id : Nat) (offset : Nat) (valp : Nat) :
    Option (Nat × Nat) :=
  if b.count_ < id then some (Errno.ENODEV, valp)
  else
    match b.devices_.get? id with
    | none => none
    | some dev => some (Device.read dev offset valp)

/-- Board::device_put: after the id > count_ check, delegates to the
addressed device's write and propagates its result verbatim. -/
def Board.device_put (b : Board) (id : Nat) (offset : Nat) (val : Nat) :
    Option (Nat × Board) :=
  if b.count_ < id then some (Errno.ENODEV, b)
  else
    match b.devices_.get? id with
    | none => none
    | some dev =>
      match Device.write dev offset val with
      | (err, dev2) => some (err, { b with devices_ := b.devices_.set id dev2 })

/-- A call against the read-only device: a read (with the current value of
its out parameter) or a write. -/
inductive RomOp
  | rd (offset : Nat) (valp : Nat)
  | wr (offset : Nat) (val : Nat)

/-- Run a sequence of read and write calls against a RomConfig; read is a
const method, write returns the possibly updated device. -/
def RomConfig.run (d : RomConfig) : List RomOp → RomConfig
  | [] => d
  | RomOp.rd _ _ :: rest => RomConfig.run d rest
  | RomOp.wr o v :: rest => RomConfig.run (RomConfig.write d o v).2 rest

/-- The read-only device Board::initialize creates. -/
def romDevice : RomConfig := RomConfig.new "Acme ROM"

/-- The read/write device of an initialized board whose version is at
most 3: the junk contents have been zero-filled. -/
def storeOk (v : Int) : Store :=
  { name_ := "Beta Memory" ++ "." ++ toString v
    version_ := v
    memory_ := List.replicate Store.MEM_SIZE_ 0 }

/-- The board Board::initialize returns when the version is at most 3. -/
def boardOk (v : Int) : Board :=
  { version_b_ := v
    count_ := NUM_DEVICES
    devices_ := [Device.rom romDevice, Device.store (storeOk v)] }

/-- The board Board::initialize returns when the version exceeds 3: the
store keeps its junk contents, untouched by the failing initialization. -/
def boardBad (v : Int) (junk : List Nat) : Board :=
  { version_b_ := v
    count_ := NUM_DEVICES
    devices_ := [Device.rom romDevice,
                 Device.store (Store.new "Beta Memory" v junk)] }

/-- Board initialization as section 4.2 of the spec words it, written from
the spec and not from the source: populate the device sequence with
exactly two devices, a read-only device and a read/write device
parameterized by the board's version, then initialize each in order,
stopping at the first failure and returning the first failing error code
(0 when both succeed). -/
def specBoardInit (b : Board) (junk : List Nat) : Nat × Board :=
  let rom0 : Device := Device.rom (RomConfig.new "Acme ROM")
  let st0 : Device := Device.store (Store.new "Beta Memory" b.version_b_ junk)
  let r1 := Device.initialize_ rom0
  if r1.1 ≠ 0 then
    (r1.1, { b with count_ := NUM_DEVICES, devices_ := b.devices_ ++ [r1.2, st0] })
  else
    let r2 := Device.initialize_ st0
    (r2.1, { b with count_ := NUM_DEVICES, devices_ := b.devices_ ++ [r1.2, r2.2] })

theorem rom_write_unchanged (d : RomConfig) (offset val : Nat) :
    (RomConfig.write d offset val).2 = d := by
  unfold RomConfig.write
  split <;> rfl

theorem rom_run_id (d : RomConfig) (ops : List RomOp) :
    RomConfig.run d ops = d := by
  induction ops generalizing d with
  | nil => rfl
  | cons op rest ih =>
    cases op with
    | rd o p => exact ih d
    | wr o v => rw [RomConfig.run, rom_write_unchanged]; exact ih d

theorem board_init_ok (v : Int) (junk : List Nat) (hv : v ≤ 3) :
    Board.initialize_ (Board.new v) junk = (0, boardOk v) := by
  simp [Board.initialize_, Board.new, initDevices, Device.initialize_,
    RomConfig.initialize_, Store.initialize_, Store.new, not_lt.mpr hv,
    boardOk, storeOk, romDevice, NUM_DEVICES]

theorem board_init_bad (v : Int) (junk : List Nat) (hv : 3 < v) :
    Board.initialize_ (Board.new v) junk = (Errno.ENXIO, boardBad v junk) := by
  simp [Board.initialize_, Board.new, initDevices, Device.initialize_,
    RomConfig.initialize_, Store.initialize_, Store.new, hv,
    boardBad, romDevice, NUM_DEVICES, Errno.ENXIO]

theorem device_read_frame (dev : Device) (offset valp : Nat)
    (h : (Device.read dev offset valp).1 ≠ 0) :
    (Device.read dev offset valp).2 = valp := by
  cases dev with
  | rom d =>
    simp only [Device.read, RomConfig.read] at h ⊢
    split at h
    · simp_all
    · simp at h
  | store d =>
    simp only [Device.read, Store.read] at h ⊢
    split at h
    · simp_all
    · simp at h

/-- C1: on an initialized Board the device count is 2, yet each of
device_name, device_size, device_get and device_put called with id equal
to the device count passes the source's id > count_ bounds check and
performs an out-of-bounds vector access (undefined behaviour, modelled
none) instead of failing with ENODEV; an id strictly greater than the
count does fail with ENODEV. -/
theorem C1_board_id_off_by_one :
    (Board.initialize_ (Board.new 3) (List.replicate 10 7)).2.count_ = 2 ∧
    Board.device_name (Board.initialize_ (Board.new 3) (List.replicate 10 7)).2 2 "x" = none ∧
    Board.device_size (Board.initialize_ (Board.new 3) (List.replicate 10 7)).2 2 0 = none ∧
    Board.device_get (Board.initialize_ (Board.new 3) (List.replicate 10 7)).2 2 0 0 = none ∧
    Board.device_put (Board.initialize_ (Board.new 3) (List.replicate 10 7)).2 2 0 5 = none ∧
    Board.device_get (Board.initialize_ (Board.new 3) (List.replicate 10 7)).2 3 0 42 =
      some (Errno.ENODEV, 42) := by
  refine ⟨rfl, rfl, rfl, rfl, rfl, rfl⟩

/-- C2: Board::initialize on a board constructed with version v fails with
ENXIO exactly when v > 3; when v ≤ 3 it returns 0 and every cell of the
read/write device's backing storage is zero. -/
theorem C2_board_init_version (v : Int) (junk : List Nat) :
    ((Board.initialize_ (Board.new v) junk).1 = Errno.ENXIO ↔ 3 < v) ∧
    (v ≤ 3 →
      (Board.initialize_ (Board.new v) junk).1 = 0 ∧
      ∃ s, (Board.initialize_ (Board.new v) junk).2.devices_.get? 1 =
          some (Device.store s) ∧
        ∀ i, i < Store.size s → s.memory_.get? i = some 0) := by
  by_cases h : 3 < v
  · rw [board_init_bad v junk h]
    exact ⟨by simp [h], fun hv => absurd h (not_lt.mpr hv)⟩
  · have hv : v ≤ 3 := not_lt.mp h
    rw [board_init_ok v junk hv]
    refine ⟨by simp [Errno.ENXIO, h], fun _ => ⟨rfl, storeOk v, rfl, fun i hi => ?_⟩⟩
    simp only [Store.size, Store.MEM_SIZE_] at hi
    simp only [storeOk]
    rw [List.get?_eq_getElem?, List.getElem?_replicate]
    simp [Store.MEM_SIZE_, hi]

/-- C2 witness: at version 4 initialization fails with ENXIO; at version 3
it succeeds and the read/write device's ten cells are all zero. -/
theorem C2_board_init_version_witness :
    ((Board.initialize_ (Board.new 4) [1, 2]).1 = Errno.ENXIO ↔ (3:Int) < 4) ∧
    ((Board.initialize_ (Board.new 3) [1, 2]).1 = 0 ∧
      ∃ s, (Board.initialize_ (Board.new 3) [1, 2]).2.devices_.get? 1 =
          some (Device.store s) ∧
        ∀ i, i < Store.size s → s.memory_.get? i = some 0) :=
  ⟨(C2_board_init_version 4 [1, 2]).1,
   (C2_board_init_version 3 [1, 2]).2 (by decide)⟩

/-- C3: on an initialized Board (version at most 3), writing any value at
any in-range offset of the read/write device (id 1, the only read/write
device) and reading it back both succeed, and the read yields exactly the
value written. -/
theorem C3_put_then_get (v : Int) (junk : List Nat) (offset val valp : Nat)
    (hv : v ≤ 3) (hoff : offset < Store.MEM_SIZE_) :
    ∃ b2 : Board,
      Board.device_put (Board.initialize_ (Board.new v) junk).2 1 offset val =
        some (0, b2) ∧
      Board.device_get b2 1 offset valp = some (0, val) := by
  rw [board_init_ok v junk hv]
  have hnot : ¬ Store.MEM_SIZE_ ≤ offset := not_le.mpr hoff
  refine ⟨{ boardOk v with
      devices_ := [Device.rom romDevice,
        Device.store { storeOk v with
          memory_ := (List.replicate Store.MEM_SIZE_ 0).set offset val }] },
    ?_, ?_⟩
  · simp only [Board.device_put, boardOk, NUM_DEVICES]
    rw [if_neg (by omega)]
    simp only [List.get?, Device.write, Store.write, storeOk]
    rw [if_neg hnot]
    simp [List.set]
  · simp only [Board.device_get, boardOk, NUM_DEVICES]
    rw [if_neg (by omega)]
    simp only [List.get?, Device.read, Store.read, storeOk]
    rw [if_neg hnot]
    simp only [Prod.mk.injEq, Option.some.injEq, true_and]
    rw [List.getD, List.get?_eq_getElem?, List.getElem?_set_self]
    · simp
    · simpa using hoff

/-- C3 witness: the spec's scenario on a version-3 board: put value
0x12345678 at offset 7 of the read/write device, then get offset 7 back. -/
theorem C3_put_then_get_witness :
    ∃ b2 : Board,
      Board.device_put (Board.initialize_ (Board.new 3) []).2 1 7 0x12345678 =
        some (0, b2) ∧
      Board.device_get b2 1 7 0 = some (0, 0x12345678) :=
  C3_put_then_get 3 [] 7 0x12345678 0 (by decide) (by decide)

/-- C4: for every device and every offset at or past the device's size,
read and write both fail with EINVAL, and the same failure propagates
through Board::device_get and Board::device_put for an id that passes the
bounds check and addresses that device. -/
theorem C4_offset_out_of_range (dev : Device) (offset val valp : Nat)
    (h : Device.size dev ≤ offset) :
    (Device.read dev offset valp).1 = Errno.EINVAL ∧
    (Device.write dev offset val).1 = Errno.EINVAL ∧
    (∀ (b : Board) (id : Nat), id ≤ b.count_ →
      b.devices_.get? id = some dev →
      Board.device_get b id offset valp = some (Errno.EINVAL, valp)) ∧
    (∀ (b : Board) (id : Nat), id ≤ b.count_ →
      b.devices_.get? id = some dev →
      ∃ b2, Board.device_put b id offset val = some (Errno.EINVAL, b2)) := by
  have hr : Device.read dev offset valp = (Errno.EINVAL, valp) := by
    cases dev with
    | rom d =>
      simp only [Device.size, RomConfig.size] at h
      simp [Device.read, RomConfig.read, h]
    | store d =>
      simp only [Device.size, Store.size] at h
      simp [Device.read, Store.read, h]
  have hw : (Device.write dev offset val).1 = Errno.EINVAL := by
    cases dev with
    | rom d =>
      simp only [Device.size, RomConfig.size] at h
      simp [Device.write, RomConfig.write, h]
    | store d =>
      simp only [Device.size, Store.size] at h
      simp [Device.write, Store.write, h]
  refine ⟨by rw [hr], hw, ?_, ?_⟩
  · intro b id hid hdev
    simp only [Board.device_get]
    rw [if_neg (by omega), hdev]
    show some (Device.read dev offset valp) = some (Errno.EINVAL, valp)
    rw [hr]
  · intro b id hid hdev
    refine ⟨{ b with devices_ := b.devices_.set id (Device.write dev offset val).2 }, ?_⟩
    simp only [Board.device_put]
    rw [if_neg (by omega), hdev]
    simp only []
    rw [show Device.write dev offset val =
      ((Device.write dev offset val).1, (Device.write dev offset val).2) from rfl, hw]

/-- C4 witness: the read-only device at offset 6 (size 5): read and write
fail with EINVAL, also through the board at device id 0. -/
theorem C4_offset_out_of_range_witness :
    (Device.read (Device.rom (RomConfig.new "Acme ROM")) 6 99).1 = Errno.EINVAL ∧
    (Device.write (Device.rom (RomConfig.new "Acme ROM")) 6 123).1 = Errno.EINVAL ∧
    (∀ (b : Board) (id : Nat), id ≤ b.count_ →
      b.devices_.get? id = some (Device.rom (RomConfig.new "Acme ROM")) →
      Board.device_get b id 6 99 = some (Errno.EINVAL, 99)) ∧
    (∀ (b : Board) (id : Nat), id ≤ b.count_ →
      b.devices_.get? id = some (Device.rom (RomConfig.new "Acme ROM")) →
      ∃ b2, Board.device_put b id 6 123 = some (Errno.EINVAL, b2)) :=
  C4_offset_out_of_range (Device.rom (RomConfig.new "Acme ROM")) 6 123 99 (by decide)

/-- C5: writing to the read-only device fails with EPERM at every in-range
offset and with EINVAL at every out-of-range offset, and never succeeds. -/
theorem C5_rom_write_never_succeeds (d : RomConfig) (offset val : Nat) :
    (offset < RomConfig.size d → (RomConfig.write d offset val).1 = Errno.EPERM) ∧
    (RomConfig.size d ≤ offset → (RomConfig.write d offset val).1 = Errno.EINVAL) ∧
    (RomConfig.write d offset val).1 ≠ 0 := by
  unfold RomConfig.write RomConfig.size
  by_cases h : RomConfig.MEM_SIZE_ ≤ offset
  · rw [if_pos h]
    exact ⟨fun hlt => absurd h (not_le.mpr hlt), fun _ => rfl, by simp [Errno.EINVAL]⟩
  · rw [if_neg h]
    exact ⟨fun _ => rfl, fun hle => absurd hle h, by simp [Errno.EPERM]⟩

/-- C6: no sequence of read and write calls against the read-only device
ever changes its backing storage: every memory cell holds the same value
afterwards as before. -/
theorem C6_rom_storage_constant (d : RomConfig) (ops : List RomOp) :
    (RomConfig.run d ops).memory_ = d.memory_ := by
  rw [rom_run_id]

/-- C7: the read-only device is constructed with index-valued contents:
reading any in-range offset succeeds and yields the offset itself. -/
theorem C7_rom_index_valued (name : String) (offset valp : Nat)
    (h : offset < RomConfig.size (RomConfig.new name)) :
    RomConfig.read (RomConfig.new name) offset valp = (0, offset) := by
  simp only [RomConfig.size] at h
  unfold RomConfig.read RomConfig.new
  rw [if_neg (not_le.mpr h)]
  rw [List.getD, List.get?_eq_getElem?, List.getElem?_range h]
  rfl

/-- C7 witness: the spec's scenario: offset 3 of the Acme ROM reads back
value 3. -/
theorem C7_rom_index_valued_witness :
    RomConfig.read (RomConfig.new "Acme ROM") 3 0 = (0, 3) :=
  C7_rom_index_valued "Acme ROM" 3 0 (by decide)

/-- C8: Board::initialize agrees with the spec's description specBoardInit
(two devices, a read-only one then a read/write one built from the board's
version, each initialized in order, stopping at and returning the first
failure, 0 when both succeed), and leaves exactly NUM_DEVICES devices and
that device count behind. -/
theorem C8_board_init_refines_spec (v : Int) (junk : List Nat) :
    Board.initialize_ (Board.new v) junk = specBoardInit (Board.new v) junk ∧
    (Board.initialize_ (Board.new v) junk).2.devices_.length = NUM_DEVICES ∧
    (Board.initialize_ (Board.new v) junk).2.count_ = NUM_DEVICES := by
  by_cases h : 3 < v
  · rw [board_init_bad v junk h]
    refine ⟨?_, rfl, rfl⟩
    simp [specBoardInit, Board.new, Device.initialize_, RomConfig.initialize_,
      Store.initialize_, Store.new, h, boardBad, romDevice, Errno.ENXIO]
  · have hv : v ≤ 3 := not_lt.mp h
    rw [board_init_ok v junk hv]
    refine ⟨?_, rfl, rfl⟩
    simp [specBoardInit, Board.new, Device.initialize_, RomConfig.initialize_,
      Store.initialize_, Store.new, h, boardOk, storeOk, romDevice]

/-- C9: failing calls leave out parameters untouched: a failing device
read leaves valp as it was, and failing Board::device_get,
Board::device_name and Board::device_size calls leave their out
parameters as they were. -/
theorem C9_out_params_untouched_on_failure (dev : Device) (offset valp : Nat)
    (b : Board) (id : Nat) (name0 : String) (size0 : Nat) :
    ((Device.read dev offset valp).1 ≠ 0 → (Device.read dev offset valp).2 = valp) ∧
    (∀ r, Board.device_get b id offset valp = some r → r.1 ≠ 0 → r.2 = valp) ∧
    (∀ r, Board.device_name b id name0 = some r → r.1 ≠ 0 → r.2 = name0) ∧
    (∀ r, Board.device_size b id size0 = some r → r.1 ≠ 0 → r.2 = size0) := by
  refine ⟨device_read_frame dev offset valp, ?_, ?_, ?_⟩
  · intro r hr hne
    simp only [Board.device_get] at hr
    split at hr
    · cases hr; rfl
    · cases hget : b.devices_.get? id with
      | none => rw [hget] at hr; cases hr
      | some dev2 =>
        rw [hget] at hr
        cases hr
        exact device_read_frame dev2 offset valp hne
  · intro r hr hne
    simp only [Board.device_name] at hr
    split at hr
    · cases hr; rfl
    · cases hget : b.devices_.get? id with
      | none => rw [hget] at hr; cases hr
      | some dev2 =>
        rw [hget] at hr
        cases hr
        exact absurd rfl hne
  · intro r hr hne
    simp only [Board.device_size] at hr
    split at hr
    · cases hr; rfl
    · cases hget : b.devices_.get? id with
      | none => rw [hget] at hr; cases hr
      | some dev2 =>
        rw [hget] at hr
        cases hr
        exact absurd rfl hne

/-- C10: a failing Store::initialize (version above 3) returns ENXIO
before the zero-fill, leaving the device, its backing storage included,
exactly as it was. -/
theorem C10_store_init_state_unchanged (s : Store) (h : 3 < s.version_) :
    Store.initialize_ s = (Errno.ENXIO, s) := by
  unfold Store.initialize_
  rw [if_pos h]

/-- C10 witness: a store constructed with version 12 and junk contents
fails initialization with ENXIO and keeps the junk contents. -/
theorem C10_store_init_state_unchanged_witness :
    Store.initialize_ (Store.new "Beta Memory" 12 [1, 2, 3]) =
      (Errno.ENXIO, Store.new "Beta Memory" 12 [1, 2, 3]) :=
  C10_store_init_state_unchanged (Store.new "Beta Memory" 12 [1, 2, 3]) (by decide)
